import Mathlib

/-!
Shallow embedding of the conmon-rs attach subsystem
(src/conmon-rs/server/src/attach.rs) and verification of its
specification claims.

Bytes are modelled as `Nat`, buffers as `List Nat`, and the tokio
broadcast channels as explicit queues / receiver counts.  Every
asynchronous loop is embedded as a step function over an explicit
event type (one event per completed `select!` arm), so that each
iteration of a source loop corresponds to one application of the step
function.
-/

namespace ConmonRs

/-- Modelled from the spec: the stream tag enum `container_io::Pipe`;
only the `StdOut` and `StdErr` variants are used by attach.rs
(the match in `Attach::write_loop` maps StdOut to byte 2 and StdErr
to byte 3). -/
inductive Pipe
  | StdOut
  | StdErr
deriving DecidableEq, Repr

/-- `Attach::PACKET_BUF_SIZE`: the size of an attach packet. -/
def PACKET_BUF_SIZE : Nat := 8192

/-- `Attach::DONE_PACKET`: the all-zero packet indicating that writing is
done (`&[0; Self::PACKET_BUF_SIZE]`). -/
def DONE_PACKET : List Nat := List.replicate PACKET_BUF_SIZE 0

/-- Linux errno for an input/output error. -/
def EIO : Nat := 5

/-- Linux errno for a bad file descriptor. -/
def EBADF : Nat := 9

/-- Linux errno for "resource temporarily unavailable". -/
def EAGAIN : Nat := 11

/-- Linux errno for "file descriptor in bad state" (`nix::errno::Errno::EBADFD`),
the error the read loop escalates `EBADF` into. -/
def EBADFD : Nat := 77

/-- `Vec::resize(n, 0)`: truncate to `n` elements if the vector is longer,
otherwise extend with zeros up to length `n`. -/
def resizeList (l : List Nat) (n : Nat) : List Nat :=
  if n ≤ l.length then l.take n else l ++ List.replicate (n - l.length) 0

/-- `Iterator::position(|&x| x == 0)`: index of the first zero element. -/
def position : List Nat → Option Nat
  | [] => none
  | x :: rest => if x = 0 then some 0 else (position rest).map (· + 1)

/-- The truncation step of `Attach::read_loop`:
`if let Some(first_zero_idx) = buf.iter().position(|&x| x == 0) { buf.resize(first_zero_idx, 0); }`. -/
def truncate_at_zero (buf : List Nat) : List Nat :=
  match position buf with
  | some i => resizeList buf i
  | none => buf

/-- Helper for `slice::chunks(8191)`, structurally recursive on a fuel
argument so that it evaluates by `decide`/`rfl`; the fuel is always
instantiated with the list length, which suffices because every
recursive call drops at least one element. -/
def chunksAux : Nat → List Nat → List (List Nat)
  | _, [] => []
  | 0, _ :: _ => []
  | fuel + 1, a :: l => ((a :: l).take 8191) :: chunksAux fuel ((a :: l).drop 8191)

/-- `buf.chunks(Self::PACKET_BUF_SIZE - 1)` from `Attach::write_loop`:
split a buffer into consecutive chunks of at most 8191 bytes (the last
chunk may be shorter); the empty buffer yields no chunks. -/
def chunks8191 (l : List Nat) : List (List Nat) := chunksAux l.length l

/-- The tag byte prepended to each outbound packet
(`match pipe { Pipe::StdOut => 2, Pipe::StdErr => 3 }`). -/
def tagByte : Pipe → Nat
  | .StdOut => 2
  | .StdErr => 3

/-- The packet construction of `Attach::write_loop`: for each chunk `x` of
at most 8191 bytes, `y = x.to_vec(); y.insert(0, tag); y.resize(8192, 0)`. -/
def mkPackets (pipe : Pipe) (buf : List Nat) : List (List Nat) :=
  (chunks8191 buf).map (fun x => resizeList (tagByte pipe :: x) PACKET_BUF_SIZE)

/-- One completed `select!` arm of `Attach::read_loop`: the read returned
`Ok(n)` with `data` the `n` bytes placed at the front of the fresh
zeroed 8192-byte buffer, the read returned an OS error (with
`raw_os_error()` as the optional errno), or the cancellation token fired. -/
inductive ReadEvent
  | readOk (data : List Nat)
  | readErr (errno : Option Nat)
  | cancelled
deriving DecidableEq, Repr

/-- The action one iteration of `Attach::read_loop` performs. -/
inductive ReadStep
  /-- `tx.send(buf)` of the truncated buffer, then loop again. -/
  | publish (buf : List Nat)
  /-- `return Ok(())` (EIO, or cancellation). -/
  | exitOk
  /-- `return Err(errno.into())` (the EBADF branch returns `Errno::EBADFD`). -/
  | exitFatalErrno (errno : Nat)
  /-- `e.raw_os_error().context("get OS error")?` propagated: the error had
  no raw OS errno. -/
  | exitFatalNoErrno
  /-- the `Errno::EAGAIN => continue` branch. -/
  | retry
  /-- the catch-all `_ => error!(...)` branch: log and loop again. -/
  | logContinue (errno : Nat)
  /-- the `_ => {}` branch for `Ok(0)`: no action, loop again. -/
  | noAction
deriving DecidableEq, Repr

/-- One iteration of `Attach::read_loop`.  A fresh buffer
`vec![0; PACKET_BUF_SIZE]` is allocated each iteration; a successful
read of `data` leaves `data` followed by the untouched zero tail. -/
def readLoopStep : ReadEvent → ReadStep
  | .readOk data =>
    if data.length > 0 then
      .publish (truncate_at_zero (data ++ List.replicate (PACKET_BUF_SIZE - data.length) 0))
    else
      .noAction
  | .readErr (some e) =>
    if e = EIO then .exitOk
    else if e = EBADF then .exitFatalErrno EBADFD
    else if e = EAGAIN then .retry
    else .logContinue e
  | .readErr none => .exitFatalNoErrno
  | .cancelled => .exitOk

/-- Outcome of one `write_half.write(packet).await` call, classified the
way `Attach::write_loop` classifies it by `ErrorKind`. -/
inductive WriteOutcome
  | ok
  | wouldBlock
  | brokenPipe
  | otherErr
deriving DecidableEq, Repr

/-- How the per-buffer packet `for` loop of `Attach::write_loop` ended. -/
inductive FramesEnd
  /-- all packets processed, fall through to the next `select!`. -/
  | finished
  /-- `Err(BrokenPipe) => break`: remaining packets abandoned at index `idx`. -/
  | abandoned (idx : Nat)
  /-- `Err(e) => bail!("unable to write packet {}/{} ...", idx, len)`. -/
  | fatal (idx : Nat)
deriving DecidableEq, Repr

/-- The packet `for` loop of `Attach::write_loop`, run against an oracle
`w` giving the outcome of the write attempt at each enumeration index.
Returns the trace of attempted writes (packet, outcome) in order,
together with how the loop ended. -/
def writeFrames (w : Nat → WriteOutcome) : Nat → List (List Nat) →
    List (List Nat × WriteOutcome) × FramesEnd
  | _, [] => ([], .finished)
  | idx, p :: rest =>
    match w idx with
    | .ok =>
      let r := writeFrames w (idx + 1) rest
      ((p, .ok) :: r.1, r.2)
    | .wouldBlock =>
      -- `Err(WouldBlock) => continue`: the packet is dropped, the loop
      -- moves on to the next packet.
      let r := writeFrames w (idx + 1) rest
      ((p, .wouldBlock) :: r.1, r.2)
    | .brokenPipe => ([(p, .brokenPipe)], .abandoned idx)
    | .otherErr => ([(p, .otherErr)], .fatal idx)

/-- One completed `select!` arm of `Attach::write_loop`: `rx.recv()`
returned `Ok((pipe, buf))`, `rx.recv()` returned an error (closed or
lagged receiver), or the cancellation token fired. -/
inductive WriteEvent
  | recv (pipe : Pipe) (buf : List Nat)
  | recvErr
  | cancelled
deriving DecidableEq, Repr

/-- The result of one iteration of `Attach::write_loop`. -/
inductive StepResult
  /-- debug-build arithmetic underflow of `packets.len() - 1`. -/
  | underflowPanic
  /-- fall through and wait for the next event. -/
  | next
  /-- `return Ok(())`. -/
  | exitOk
  /-- `bail!(...)` or `res?` propagation. -/
  | exitFatal
deriving DecidableEq, Repr

/-- Debug-build `usize` subtraction: panics (modelled as `none`) when the
subtrahend exceeds the minuend. -/
def checkedSub (a b : Nat) : Option Nat :=
  if b ≤ a then some (a - b) else none

/-- How the end of the packet `for` loop maps onto the fate of
`Attach::write_loop` itself: `finished` and `abandoned` (the
`BrokenPipe => break`) both fall through to the next `select!`, while
`fatal` fails the whole loop. -/
def framesEndToStep : FramesEnd → StepResult
  | .finished => .next
  | .abandoned _ => .next
  | .fatal _ => .exitFatal

/-- One iteration of `Attach::write_loop`, returning the trace of write
attempts (packet, outcome) and the loop's resulting step.  `w` is the
per-index write outcome oracle for the packet loop and `doneW` the
outcome of the single done-packet write on cancellation. -/
def writeLoopStep (w : Nat → WriteOutcome) (doneW : WriteOutcome) :
    WriteEvent → List (List Nat × WriteOutcome) × StepResult
  | .recv pipe buf =>
    let packets := mkPackets pipe buf
    -- `let len = packets.len() - 1;` runs before the for loop.
    match checkedSub packets.length 1 with
    | none => ([], .underflowPanic)
    | some _len =>
      let r := writeFrames w 0 packets
      (r.1, framesEndToStep r.2)
  | .recvErr => ([], .exitFatal)
  | .cancelled =>
    -- `write_half.write(Self::DONE_PACKET).await`, exactly one attempt:
    -- Ok / WouldBlock / BrokenPipe all reach `return Ok(())`, anything
    -- else is `bail!`.
    ([(DONE_PACKET, doneW)],
      match doneW with
      | .ok => .exitOk
      | .wouldBlock => .exitOk
      | .brokenPipe => .exitOk
      | .otherErr => .exitFatal)

/-- One completed `listener.accept().await` of `Attach::start`. -/
inductive AcceptEvent
  | conn
  | acceptErr
deriving DecidableEq, Repr

/-- What one iteration of the accept loop in `Attach::start` does. -/
inductive StartAction
  /-- split the stream and spawn one read-loop task and one write-loop task. -/
  | spawnLoops
  /-- `Err(e) => error!("Unable to accept attach stream")`, keep looping. -/
  | logErr
deriving DecidableEq, Repr

/-- One iteration of the accept loop in `Attach::start`.  The token is in
scope (it is cloned into the spawned connection loops) but the loop body
contains no `select!` on `token.cancelled()` and no branch inspecting it,
so the parameter is unused. -/
def startStep (_cancelled : Bool) : AcceptEvent → StartAction
  | .conn => .spawnLoops
  | .acceptErr => .logErr

/-- The accept loop of `Attach::start` run over a finite prefix of its
event stream: every event is processed and the loop never returns. -/
def startRun (cancelled : Bool) (evs : List AcceptEvent) : List StartAction :=
  evs.map (startStep cancelled)

/-- Model of `SharedContainerAttach`: the inbound broadcast channel is
modelled by this handle's pending receive queue (`read_half_rx`), the
outbound broadcast channel by its current receiver count and the ordered
log of messages sent through `write_half_tx`. -/
structure SharedContainerAttach where
  read_half_rx : List (List Nat)
  write_half_receiver_count : Nat
  write_half_sent : List (Pipe × List Nat)
deriving DecidableEq, Repr

/-- `SharedContainerAttach::read`: `self.read_half_rx.recv().await`; `none`
models suspension (nothing pending yet). -/
def SharedContainerAttach.read (s : SharedContainerAttach) :
    Option (List Nat × SharedContainerAttach) :=
  match s.read_half_rx with
  | [] => none
  | b :: rest => some (b, { s with read_half_rx := rest })

/-- `SharedContainerAttach::write`: send `(pipe, buf)` on the outbound
broadcast channel only `if self.write_half_tx.receiver_count() > 0`;
with a positive receiver count a tokio broadcast send succeeds. -/
def SharedContainerAttach.write (s : SharedContainerAttach) (pipe : Pipe)
    (buf : List Nat) : Except String Unit × SharedContainerAttach :=
  if s.write_half_receiver_count > 0 then
    (.ok (), { s with write_half_sent := s.write_half_sent ++ [(pipe, buf)] })
  else
    (.ok (), s)

/-- The environment a call to `Attach::create` runs against: whether the
path already exists, whether each fallible step succeeds, and the
permission mode the socket file carries once `bind` creates it. -/
structure CreateEnv where
  pathExists : Bool
  socketOk : Bool
  shortenOk : Bool
  addrOk : Bool
  bindOk : Bool
  bindMode : Nat
  metadataOk : Bool
  listenOk : Bool
deriving DecidableEq, Repr

/-- Observable side effects of a call to `Attach::create`: whether a
socket fd was allocated, whether it was bound (creating the filesystem
entry), the final permission mode of that entry (`none` if no entry was
created), whether the socket is listening, and whether the accept-loop
task was spawned. -/
structure SideEffects where
  socketCreated : Bool
  bound : Bool
  fileMode : Option Nat
  listening : Bool
  acceptLoopSpawned : Bool
deriving DecidableEq, Repr

/-- The empty side-effect record: nothing created, bound, listening or
spawned. -/
def noEffects : SideEffects :=
  { socketCreated := false, bound := false, fileMode := none,
    listening := false, acceptLoopSpawned := false }

/-- `std::fs::Permissions::set_mode`: replaces the mode of the in-memory
permissions value. -/
def setMode (_old newMode : Nat) : Nat := newMode

/-- `Attach::create`, step for step.  Note the permissions handling: the
source reads `path.metadata()?`, takes `metadata.permissions()` and calls
`permissions.set_mode(0o700)` on that in-memory value, but never calls
`std::fs::set_permissions` (or any chmod) to write it back, so the
filesystem entry keeps the mode `bind` created it with. -/
def Attach.create (env : CreateEnv) : Except String Unit × SideEffects :=
  if env.pathExists then
    (.error "Attach socket path already exists", noEffects)
  else if !env.socketOk then
    (.error "bind socket", noEffects)
  else if !env.shortenOk then
    (.error "shorten socket path", { noEffects with socketCreated := true })
  else if !env.addrOk then
    (.error "create socket addr", { noEffects with socketCreated := true })
  else if !env.bindOk then
    (.error "bind socket fd", { noEffects with socketCreated := true })
  else if !env.metadataOk then
    (.error "metadata",
      { socketCreated := true, bound := true, fileMode := some env.bindMode,
        listening := false, acceptLoopSpawned := false })
  else
    -- the set_mode result is dropped on the floor in the source
    let _permissions := setMode env.bindMode 0o700
    if !env.listenOk then
      (.error "listen on socket fd",
        { socketCreated := true, bound := true, fileMode := some env.bindMode,
          listening := false, acceptLoopSpawned := false })
    else
      (.ok (),
        { socketCreated := true, bound := true, fileMode := some env.bindMode,
          listening := true, acceptLoopSpawned := true })

/-- `SharedContainerAttach::add`: delegates to `Attach::create`
(wrapping the error with the "create attach endpoint" context). -/
def SharedContainerAttach.add (env : CreateEnv) : Except String Unit × SideEffects :=
  Attach.create env

/-- A run of `Attach::create` in which the path is fresh and every system
call succeeds, with `bind` creating the socket file with the common default
mode 0o755. -/
def envAllOk755 : CreateEnv :=
  { pathExists := false, socketOk := true, shortenOk := true, addrOk := true,
    bindOk := true, bindMode := 0o755, metadataOk := true, listenOk := true }

/-! Helper lemmas. -/

theorem chunksAux_nil (fuel : Nat) : chunksAux fuel [] = [] := by
  cases fuel <;> rfl

theorem chunksAux_flatten :
    ∀ (fuel : Nat) (l : List Nat), l.length ≤ fuel →
      (chunksAux fuel l).flatten = l := by
  intro fuel
  induction fuel with
  | zero =>
    intro l h
    have : l = [] := List.eq_nil_of_length_eq_zero (Nat.le_zero.mp h)
    subst this
    rfl
  | succ n ih =>
    intro l h
    cases l with
    | nil => rfl
    | cons a t =>
      have hd : ((a :: t).drop 8191).length ≤ n := by
        simp only [List.length_drop, List.length_cons]
        simp only [List.length_cons] at h
        omega
      simp only [chunksAux, List.flatten_cons, ih _ hd]
      exact List.take_append_drop 8191 (a :: t)

theorem chunksAux_length :
    ∀ (fuel : Nat) (l : List Nat), l.length ≤ fuel →
      (chunksAux fuel l).length = (l.length + 8190) / 8191 := by
  intro fuel
  induction fuel with
  | zero =>
    intro l h
    have : l = [] := List.eq_nil_of_length_eq_zero (Nat.le_zero.mp h)
    subst this
    rfl
  | succ n ih =>
    intro l h
    cases l with
    | nil => rfl
    | cons a t =>
      have hd : ((a :: t).drop 8191).length ≤ n := by
        simp only [List.length_drop, List.length_cons]
        simp only [List.length_cons] at h
        omega
      simp only [chunksAux, List.length_cons, ih _ hd, List.length_drop]
      omega

theorem chunksAux_mem_length :
    ∀ (fuel : Nat) (l : List Nat) (c : List Nat), c ∈ chunksAux fuel l →
      c.length ≤ 8191 := by
  intro fuel
  induction fuel with
  | zero =>
    intro l c hc
    cases l with
    | nil => simp [chunksAux] at hc
    | cons a t => simp [chunksAux] at hc
  | succ n ih =>
    intro l c hc
    cases l with
    | nil => simp [chunksAux_nil] at hc
    | cons a t =>
      simp only [chunksAux, List.mem_cons] at hc
      rcases hc with hc | hc
      · subst hc
        simp only [List.length_take]
        omega
      · exact ih _ _ hc

theorem chunks8191_flatten (l : List Nat) : (chunks8191 l).flatten = l :=
  chunksAux_flatten l.length l (Nat.le_refl _)

theorem chunks8191_length (l : List Nat) :
    (chunks8191 l).length = (l.length + 8190) / 8191 :=
  chunksAux_length l.length l (Nat.le_refl _)

theorem chunks8191_mem_length {l c : List Nat} (hc : c ∈ chunks8191 l) :
    c.length ≤ 8191 :=
  chunksAux_mem_length l.length l c hc

theorem chunks8191_singleton (l : List Nat) (h1 : 1 ≤ l.length)
    (h2 : l.length ≤ 8191) : chunks8191 l = [l] := by
  cases l with
  | nil => simp at h1
  | cons a t =>
    show chunksAux (t.length + 1) (a :: t) = [a :: t]
    simp only [chunksAux]
    rw [List.take_of_length_le (by simpa using h2),
      List.drop_eq_nil_of_le (by simpa using h2), chunksAux_nil]

theorem resizeList_cons_packet (t : Nat) (c : List Nat) (h : c.length ≤ 8191) :
    resizeList (t :: c) PACKET_BUF_SIZE =
      t :: (c ++ List.replicate (8191 - c.length) 0) := by
  unfold resizeList PACKET_BUF_SIZE
  by_cases hc : c.length = 8191
  · rw [if_pos (by simp [hc])]
    rw [List.take_of_length_le (by simp [hc])]
    simp [hc]
  · rw [if_neg (by simp; omega)]
    have : 8192 - (t :: c).length = 8191 - c.length := by
      simp only [List.length_cons]
      omega
    rw [this, List.cons_append]

theorem mkPackets_eq (pipe : Pipe) (buf : List Nat) :
    mkPackets pipe buf =
      (chunks8191 buf).map
        (fun c => tagByte pipe :: (c ++ List.replicate (8191 - c.length) 0)) := by
  unfold mkPackets
  exact List.map_congr_left fun c hc =>
    resizeList_cons_packet (tagByte pipe) c (chunks8191_mem_length hc)

theorem mkPackets_frame_length (pipe : Pipe) (buf : List Nat) :
    ∀ f ∈ mkPackets pipe buf, f.length = PACKET_BUF_SIZE := by
  intro f hf
  rw [mkPackets_eq] at hf
  rcases List.mem_map.mp hf with ⟨c, hc, rfl⟩
  have := chunks8191_mem_length hc
  simp only [List.length_cons, List.length_append, List.length_replicate,
    PACKET_BUF_SIZE]
  omega

theorem position_append_zero (b r : List Nat) (h : ∀ x ∈ b, x ≠ 0) :
    position (b ++ 0 :: r) = some b.length := by
  induction b with
  | nil => simp [position]
  | cons a t ih =>
    have ha : a ≠ 0 := h a (List.mem_cons_self a t)
    simp only [List.cons_append, position, if_neg ha, List.append_eq]
    rw [ih fun x hx => h x (List.mem_cons_of_mem a hx)]
    rfl

theorem truncate_at_zero_append (b r : List Nat) (h : ∀ x ∈ b, x ≠ 0) :
    truncate_at_zero (b ++ 0 :: r) = b := by
  unfold truncate_at_zero
  rw [position_append_zero b r h]
  show resizeList (b ++ 0 :: r) b.length = b
  unfold resizeList
  rw [if_pos (by simp)]
  exact List.take_left b (0 :: r)

/-! Claim theorems. -/

/-- C1 is refuted by the code: `Attach::create` succeeds on a fresh path, but
the socket file keeps whatever permission mode `bind` created it with (here
0o755) — the source calls `Permissions::set_mode(0o700)` only on the in-memory
permissions value read from the metadata and never writes it back with
`fs::set_permissions`, so the filesystem entry never becomes 0700. -/
theorem create_leaves_socket_file_mode_unchanged :
    (Attach.create envAllOk755).1 = .ok () ∧
    (Attach.create envAllOk755).2.fileMode = some 0o755 ∧
    (0o755 : Nat) ≠ 0o700 :=
  ⟨rfl, rfl, by decide⟩

/-- C2 counterexample: with the cancellation token already fired, the accept
loop of `Attach::start` still accepts a new connection and spawns its
read/write loops — its body never inspects the token, so cancellation does not
stop new connections from being accepted. -/
theorem accept_loop_accepts_after_cancellation :
    startRun true [AcceptEvent.conn] = [StartAction.spawnLoops] := rfl

/-- C2 (amended): once the cancellation token fires, each connection's read
loop and write loop observes it at its next suspension point and exits
(cleanly, or fatally only if the final done-packet write fails hard), but the
accept loop does not observe the token: it behaves identically whether or not
cancellation fired and keeps handling every accept event. -/
theorem cancellation_stops_connection_loops_not_accept_loop
    (cancelled : Bool) (evs : List AcceptEvent)
    (w : Nat → WriteOutcome) (doneW : WriteOutcome) :
    startRun cancelled evs = startRun false evs ∧
    (startRun cancelled evs).length = evs.length ∧
    readLoopStep .cancelled = .exitOk ∧
    ((writeLoopStep w doneW .cancelled).2 = .exitOk ∨
      (writeLoopStep w doneW .cancelled).2 = .exitFatal) := by
  refine ⟨?_, by simp [startRun], rfl, ?_⟩
  · unfold startRun
    apply List.map_congr_left
    intro ev _
    cases ev <;> rfl
  · cases doneW
    · exact Or.inl rfl
    · exact Or.inl rfl
    · exact Or.inl rfl
    · exact Or.inr rfl

/-- C3: for every byte sequence `b` containing no zero byte, a read that
returns `b` followed by a zero byte (within one 8192-byte read) makes the
read loop truncate the buffer at the first zero and publish exactly `b` to
the inbound channel, and `Hub.read` hands exactly `b` back to the caller. -/
theorem read_loop_truncates_at_first_zero (b : List Nat)
    (n : Nat) (s : List (Pipe × List Nat))
    (hz : ∀ x ∈ b, x ≠ 0) (_hlen : b.length + 1 ≤ PACKET_BUF_SIZE) :
    readLoopStep (.readOk (b ++ [0])) = .publish b ∧
    SharedContainerAttach.read ⟨[b], n, s⟩ = some (b, ⟨[], n, s⟩) := by
  constructor
  · have harg : (b ++ [0]) ++
        List.replicate (PACKET_BUF_SIZE - (b ++ [0]).length) 0 =
        b ++ 0 :: List.replicate (PACKET_BUF_SIZE - (b ++ [0]).length) 0 := by
      rw [List.append_assoc]
      rfl
    simp only [readLoopStep]
    rw [if_pos (by simp), harg, truncate_at_zero_append b _ hz]
  · rfl

/-- Witness for C3 at a concrete input. -/
theorem read_loop_truncates_at_first_zero_witness :
    readLoopStep (.readOk ([1, 2, 3] ++ [0])) = .publish [1, 2, 3] ∧
    SharedContainerAttach.read ⟨[[1, 2, 3]], 0, []⟩ =
      some ([1, 2, 3], ⟨[], 0, []⟩) :=
  read_loop_truncates_at_first_zero [1, 2, 3] 0 [] (by decide) (by decide)

/-- C4 counterexample: for the empty payload the chunking of the write loop
yields zero packets, although the claim as stated demands exactly one frame
whenever the payload length is at most 8191. -/
theorem write_loop_framing_empty_payload_cx :
    mkPackets Pipe.StdOut [] = [] ∧
    (List.length ([] : List Nat) ≤ 8191 ∧ (mkPackets Pipe.StdOut []).length ≠ 1) :=
  ⟨rfl, by decide, by decide⟩

/-- C4 (amended): the write loop frames a payload as exactly
`ceil(len / 8191)` packets of 8192 bytes each — exactly one packet when
`1 ≤ len ≤ 8191` and zero packets for the empty payload — each packet being
the tag byte followed by its chunk of at most 8191 bytes and a zero-padded
tail, with the chunks concatenating back to the payload in order. -/
theorem write_loop_framing (pipe : Pipe) (buf : List Nat) :
    (mkPackets pipe buf).length = (buf.length + 8190) / 8191 ∧
    mkPackets pipe buf =
      (chunks8191 buf).map
        (fun c => tagByte pipe :: (c ++ List.replicate (8191 - c.length) 0)) ∧
    (∀ f ∈ mkPackets pipe buf, f.length = PACKET_BUF_SIZE) ∧
    (chunks8191 buf).flatten = buf ∧
    (∀ c ∈ chunks8191 buf, c.length ≤ 8191) ∧
    (1 ≤ buf.length → buf.length ≤ 8191 →
      mkPackets pipe buf =
        [tagByte pipe :: (buf ++ List.replicate (8191 - buf.length) 0)]) := by
  refine ⟨?_, mkPackets_eq pipe buf, mkPackets_frame_length pipe buf,
    chunks8191_flatten buf, fun c hc => chunks8191_mem_length hc, ?_⟩
  · rw [mkPackets, List.length_map, chunks8191_length]
  · intro h1 h2
    rw [mkPackets_eq, chunks8191_singleton buf h1 h2]
    rfl

/-- Witness for C4 at a concrete input: a one-byte stdout payload becomes the
single packet tag 2, payload byte, 8190 zero bytes. -/
theorem write_loop_framing_witness :
    mkPackets Pipe.StdOut [9] = [2 :: ([9] ++ List.replicate 8190 0)] :=
  (write_loop_framing Pipe.StdOut [9]).2.2.2.2.2 (by decide) (by decide)

/-- C5: the read loop classifies OS read errors by errno — EIO exits the loop
cleanly with success, EBADF returns the distinct file-descriptor-in-bad-state
fatal error EBADFD, EAGAIN retries immediately, any other errno is logged and
the loop continues — and a read of 0 bytes causes no action. -/
theorem read_loop_errno_policy (e : Nat)
    (h5 : e ≠ EIO) (h9 : e ≠ EBADF) (h11 : e ≠ EAGAIN) :
    readLoopStep (.readErr (some EIO)) = .exitOk ∧
    (readLoopStep (.readErr (some EBADF)) = .exitFatalErrno EBADFD ∧
      EBADFD ≠ EBADF) ∧
    readLoopStep (.readErr (some EAGAIN)) = .retry ∧
    readLoopStep (.readErr (some e)) = .logContinue e ∧
    readLoopStep (.readOk []) = .noAction := by
  refine ⟨by decide, ⟨by decide, by decide⟩, by decide, ?_, by decide⟩
  simp only [readLoopStep]
  rw [if_neg h5, if_neg h9, if_neg h11]

/-- Witness for C5 at the concrete errno 13 (EACCES). -/
theorem read_loop_errno_policy_witness :
    readLoopStep (.readErr (some 13)) = .logContinue 13 :=
  (read_loop_errno_policy 13 (by decide) (by decide) (by decide)).2.2.2.1

/-- C6: per-frame write error policy of the write loop — a WouldBlock outcome
drops only that frame and continues with the next frame of the same buffer, a
BrokenPipe outcome abandons all remaining frames of the buffer while the loop
itself survives to wait for the next event, and any other write error ends the
whole loop fatally carrying the frame index. -/
theorem write_loop_frame_error_policy (w : Nat → WriteOutcome)
    (i j k : Nat) (p q r : List Nat)
    (restW restB restF : List (List Nat))
    (hw : w i = .wouldBlock) (hb : w j = .brokenPipe) (hf : w k = .otherErr) :
    writeFrames w i (p :: restW) =
      ((p, .wouldBlock) :: (writeFrames w (i + 1) restW).1,
        (writeFrames w (i + 1) restW).2) ∧
    writeFrames w j (q :: restB) = ([(q, .brokenPipe)], .abandoned j) ∧
    framesEndToStep (.abandoned j) = .next ∧
    writeFrames w k (r :: restF) = ([(r, .otherErr)], .fatal k) ∧
    framesEndToStep (.fatal k) = .exitFatal := by
  refine ⟨?_, ?_, rfl, ?_, rfl⟩
  · simp only [writeFrames, hw]
  · simp only [writeFrames, hb]
  · simp only [writeFrames, hf]

/-- Witness for C6 at concrete inputs. -/
theorem write_loop_frame_error_policy_witness :
    writeFrames
      (fun m => if m = 0 then WriteOutcome.wouldBlock
        else if m = 1 then WriteOutcome.brokenPipe else WriteOutcome.otherErr)
      1 [[7]] = ([([7], WriteOutcome.brokenPipe)], FramesEnd.abandoned 1) :=
  (write_loop_frame_error_policy
    (fun m => if m = 0 then WriteOutcome.wouldBlock
      else if m = 1 then WriteOutcome.brokenPipe else WriteOutcome.otherErr)
    0 1 2 [5] [7] [9] [] [] []
    (by decide) (by decide) (by decide)).2.1

/-- C7: when the cancellation token fires, the write loop attempts exactly one
write, of the all-zero 8192-byte done packet, and exits successfully;
WouldBlock and BrokenPipe on that final write are swallowed, while any other
error on it makes the loop exit fatally. -/
theorem write_loop_done_packet_on_cancel (w : Nat → WriteOutcome)
    (doneW : WriteOutcome) :
    (writeLoopStep w doneW .cancelled).1 =
      [(List.replicate PACKET_BUF_SIZE 0, doneW)] ∧
    DONE_PACKET = List.replicate PACKET_BUF_SIZE 0 ∧
    (writeLoopStep w doneW .cancelled).2 =
      (if doneW = .otherErr then .exitFatal else .exitOk) := by
  refine ⟨rfl, rfl, ?_⟩
  cases doneW <;> rfl

/-- C8: calling add on a path that already exists fails with the
"already exists" error and has no side effects — no socket created, nothing
bound or listening, no filesystem entry touched, no accept loop spawned. -/
theorem add_existing_path_no_side_effects (env : CreateEnv) :
    SharedContainerAttach.add { env with pathExists := true } =
      (.error "Attach socket path already exists", noEffects) := rfl

/-- C9: Hub.write with zero subscribers on the outbound channel returns
success without sending anything and leaves the hub state unchanged. -/
theorem hub_write_zero_subscribers_noop (pipe : Pipe) (buf : List Nat)
    (q : List (List Nat)) (s : List (Pipe × List Nat)) :
    SharedContainerAttach.write ⟨q, 0, s⟩ pipe buf = (.ok (), ⟨q, 0, s⟩) := rfl

/-- C10: with at least one connected client, Hub.write does deliver an empty
payload to the write loop, whose chunking then yields zero packets, so the
`packets.len() - 1` computation underflows usize (a panic in debug builds)
instead of being a harmless no-op — while every non-empty payload avoids the
underflow. -/
theorem write_loop_empty_payload_underflow (w : Nat → WriteOutcome)
    (doneW : WriteOutcome) (pipe : Pipe) (n : Nat)
    (q : List (List Nat)) (s : List (Pipe × List Nat)) :
    (SharedContainerAttach.write ⟨q, n + 1, s⟩ pipe []).1 = .ok () ∧
    (SharedContainerAttach.write ⟨q, n + 1, s⟩ pipe []).2.write_half_sent =
      s ++ [(pipe, [])] ∧
    mkPackets pipe [] = [] ∧
    checkedSub (mkPackets pipe []).length 1 = none ∧
    writeLoopStep w doneW (.recv pipe []) = ([], .underflowPanic) ∧
    (∀ x xs, (writeLoopStep w doneW (.recv pipe (x :: xs))).2 ≠
      .underflowPanic) := by
  refine ⟨?_, ?_, rfl, rfl, rfl, ?_⟩
  · simp [SharedContainerAttach.write]
  · simp [SharedContainerAttach.write]
  · intro x xs
    have hlen : 1 ≤ (mkPackets pipe (x :: xs)).length := by
      rw [mkPackets, List.length_map, chunks8191_length]
      simp only [List.length_cons]
      omega
    have hcs : checkedSub (mkPackets pipe (x :: xs)).length 1 =
        some ((mkPackets pipe (x :: xs)).length - 1) := by
      unfold checkedSub
      rw [if_pos hlen]
    simp only [writeLoopStep, hcs]
    cases (writeFrames w 0 (mkPackets pipe (x :: xs))).2 <;> simp [framesEndToStep]

end ConmonRs
